import Mathlib

/-!
Shallow embedding of the jaraxxus_nexus task orchestrator.

Source files embedded here:
  * `src/orchestrator.py` — routing, step execution, outcome normalization,
    loop-control helpers, recovery helpers;
  * `src/jaraxxus.py` — the module-level control flow (main execution loop,
    recovery sequence, recovered-plan loop, lesson append, crash recovery);
  * `src/memory_manager.py` — the shape of scratchpad log entries;
  * `src/tools.py` — workspace path resolution and the file tools.

Text-generation backends (the LLM agents), the MemOS memory server and the
Gemini subprocess are collaborators behind narrow interfaces; they are
modelled as explicit function parameters (oracles) supplied to the embedded
control flow, so every definition below is executable on concrete inputs.

String primitives are re-implemented over `List Char` so that every
definition reduces inside the kernel (Lean's byte-position based `String`
functions do not).
-/

namespace Jaraxxus

/-! ## Character-list string primitives -/

/-- ASCII whitespace test used by the model of Python `str.strip`. -/
def isSpaceChar (c : Char) : Bool :=
  c == ' ' || c == '\t' || c == '\n' || c == '\r'

/-- Model of Python `str.strip`: drop leading and trailing whitespace. -/
def strTrim (s : String) : String :=
  String.mk (((s.data.dropWhile isSpaceChar).reverse.dropWhile isSpaceChar).reverse)

/-- Does `kw` occur at the head of the character list? -/
def seqLeads : List Char → List Char → Bool
  | [], _ => true
  | _ :: _, [] => false
  | a :: as, b :: bs => a == b && seqLeads as bs

/-- Does `kw` occur contiguously anywhere in the character list?
Models the Python substring operator `kw in s`. -/
def seqHas (kw : List Char) : List Char → Bool
  | [] => seqLeads kw []
  | c :: rest => seqLeads kw (c :: rest) || seqHas kw rest

/-- Model of Python `s.startswith(kw)`. -/
def strStartsWith (s kw : String) : Bool := seqLeads kw.data s.data

/-- Model of Python `kw in s` (substring containment). -/
def strHas (s kw : String) : Bool := seqHas kw.data s.data

/-- Model of Python `s.lower()` (ASCII-level lowering suffices here). -/
def strLower (s : String) : String := String.mk (s.data.map Char.toLower)

/-- Split a character list at newline characters.  Models
`str.splitlines` closely enough for the plan parser: the parser discards
blank lines, so the extra empty segment this produces for a trailing
newline (or for the empty string) never reaches the plan. -/
def splitNL : List Char → List (List Char)
  | [] => [[]]
  | c :: rest =>
    match splitNL rest with
    | [] => [[]]
    | l :: ls => if c == '\n' then [] :: l :: ls else (c :: l) :: ls

/-- Model of `response.splitlines()` in `orchestrator.py`. -/
def splitLines (s : String) : List String := (splitNL s.data).map String.mk

/-- Everything after the first `'.'`, or the whole list when there is no
`'.'`.  Models Python `step.split('.', 1)[-1]`. -/
def afterFirstDot (s : String) : String :=
  match dropThroughDot s.data with
  | some rest => String.mk rest
  | none => s
where
  /-- Returns the characters after the first `'.'`, or `none` if absent. -/
  dropThroughDot : List Char → Option (List Char)
    | [] => none
    | c :: rest => if c == '.' then some rest else dropThroughDot rest

/-! ## Dispatcher routing (`orchestrator.py`, `execute_next_step` lines 64-74) -/

/-- Capability tags a step can be routed to. -/
inductive Capability
  | fileOps
  | commandExec
  | analysis
deriving DecidableEq

/-- Keyword set of the file-I/O branch (`orchestrator.py` line 64). -/
def fileKeywords : List String := ["file", "read", "write", "open", "save"]

/-- Keyword set of the command-execution branch (`orchestrator.py` line 69). -/
def commandKeywords : List String := ["shell", "command", "execute", "run"]

/-- Python `any(kw in step_description.lower() for kw in kws)`. -/
def hasAnyKeyword (kws : List String) (step : String) : Bool :=
  kws.any (fun kw => strHas (strLower step) kw)

/-- Routing policy of `execute_next_step`: the file-keyword test runs
first, then the command-keyword test, else the analysis default. -/
def route (step : String) : Capability :=
  if hasAnyKeyword fileKeywords step then Capability.fileOps
  else if hasAnyKeyword commandKeywords step then Capability.commandExec
  else Capability.analysis

/-! ## Raw worker results and outcome normalization
(`orchestrator.py`, `execute_next_step` lines 84-105) -/

/-- Shape of a raw result returned by a specialist agent.  The source
distinguishes three shapes dynamically:
  * `text s` — a Python `str` result that does NOT contain the substring
    `"exit_code":`;
  * `exitJson s code` — a Python `str` result that DOES contain the
    substring `"exit_code":`; `code` is the exit code `json.loads` would
    extract from it (the source maps a parse failure or a missing field
    to `0`, so every such string carries some `code`);
  * `dict exitCode diff` — a structured (Python `dict`) result, as
    produced e.g. by `tools.run_bash_command` and `tools.write_file`,
    with its optional `exit_code` and `diff` fields.
The constructor choice encodes the `isinstance(result, str)` and
`'"exit_code":' in result` tests that the source performs dynamically. -/
inductive RawResult
  | text (s : String)
  | exitJson (s : String) (code : Int)
  | dict (exitCode : Option Int) (diff : Option String)
deriving DecidableEq

/-- Python truthiness of a raw result (`""` is falsy; the dicts built by
the tools always carry at least one key, hence are truthy). -/
def RawResult.isTruthy : RawResult → Bool
  | RawResult.text s => !(s == "")
  | RawResult.exitJson s _ => !(s == "")
  | RawResult.dict _ _ => true

/-- View of a raw result as the string the source would concatenate into
a prompt (only ever applied to string results). -/
def RawResult.asText : RawResult → String
  | RawResult.text s => s
  | RawResult.exitJson s _ => s
  | RawResult.dict _ _ => ""

/-- Status/error normalization of `execute_next_step` (lines 87-102):
  * a string result whose stripped form starts with `"ERROR"` is a
    FAILURE whose error is the full raw text;
  * otherwise a string result containing `"exit_code":` is a FAILURE
    exactly when the parsed code is non-zero, with a formatted error
    citing the code;
  * every other result — including a structured dict, whatever its
    `exit_code` field — is a SUCCESS.
Returns the status string and the error to record (`none` keeps the
previous `error` field, as the source only assigns on failure). -/
def normalizeStatus : RawResult → String × Option String
  | RawResult.text s =>
    if strStartsWith (strTrim s) "ERROR" then ("FAILURE", some s)
    else ("SUCCESS", none)
  | RawResult.exitJson s code =>
    if strStartsWith (strTrim s) "ERROR" then ("FAILURE", some s)
    else if code ≠ 0 then
      ("FAILURE", some ("Command returned exit code " ++ toString code))
    else ("SUCCESS", none)
  | RawResult.dict _ _ => ("SUCCESS", none)

/-! ## Orchestrator state (`orchestrator.py`, `JaraxxusState`) -/

/-- The `TypedDict` threaded through the LangGraph nodes.  A `none`
models a missing key (or a key explicitly set to Python `None` — the
source treats the two alike through `dict.get`). -/
structure JaraxxusState where
  session_id : String := ""
  goal : Option String := none
  plan : Option (List String) := none
  current_step : Option Nat := none
  last_action : Option String := none
  last_action_result : Option RawResult := none
  last_action_status : Option String := none
  last_file_diff : Option String := none
  error : Option String := none
  crash_log : Option String := none
  analysis : Option String := none
  progenitor_suggestion : Option String := none
deriving DecidableEq

/-- Worker oracle: one specialist invocation.  `Except.error msg` models
the underlying call raising an exception with message `msg`. -/
def Worker : Type := Capability → String → Except String RawResult

/-- Field updates `execute_next_step` performs before dispatching
(lines 57-59): the CURRENT step becomes `last_action` and the result and
status fields are reset to the empty string. -/
def applyStepHeader (st : JaraxxusState) (step : String) : JaraxxusState :=
  { st with last_action := some step,
            last_action_result := some (RawResult.text ""),
            last_action_status := some "" }

/-- Context rule of the analysis branch (lines 77-80): append the prior
result to the prompt when `last_action` is truthy, contains `"read"`
lowercased, and `last_action_result` is truthy.  Evaluated, as in the
source, on the state AFTER `applyStepHeader` has run. -/
def analysisPrompt (st : JaraxxusState) (step : String) : String :=
  match st.last_action, st.last_action_result with
  | some la, some r =>
    if !(la == "") && strHas (strLower la) "read" && r.isTruthy then
      step ++ "\nContent:\n" ++ r.asText
    else step
  | _, _ => step

/-- Prompt actually handed to the routed specialist: the analysis branch
may append context, the other branches pass the step text unchanged. -/
def dispatchPrompt (st : JaraxxusState) (step : String) : String :=
  match route step with
  | Capability.analysis => analysisPrompt st step
  | _ => step

/-- Embedding of `execute_next_step` (`orchestrator.py` lines 50-111).
Out-of-range or absent step index returns the state unchanged (line 54).
The whole dispatch runs inside `try`, so a worker exception becomes a
FAILURE outcome carrying a formatted message (lines 106-110). -/
def execute_next_step (worker : Worker) (st : JaraxxusState) : JaraxxusState :=
  match st.current_step, st.plan with
  | some idx, some plan =>
    if h : idx < plan.length then
      let step := plan.get ⟨idx, h⟩
      let st1 := applyStepHeader st step
      match worker (route step) (dispatchPrompt st1 step) with
      | Except.error e =>
        { st1 with last_action_result := some (RawResult.text ""),
                   last_action_status := some "FAILURE",
                   error := some ("Exception during step: " ++ e) }
      | Except.ok result =>
        let n := normalizeStatus result
        let st2 := { st1 with last_action_result := some result,
                              last_action_status := some n.1,
                              error := match n.2 with
                                       | some e => some e
                                       | none => st1.error }
        match result with
        | RawResult.dict _ (some d) => { st2 with last_file_diff := some d }
        | _ => st2
    else st
  | _, _ => st

/-- Embedding of `proceed_or_handle_failure` (lines 113-120): FAILURE
holds the index, anything else advances it by one. -/
def proceed_or_handle_failure (st : JaraxxusState) : JaraxxusState :=
  if st.last_action_status = some "FAILURE" then st
  else { st with current_step := st.current_step.map (· + 1) }

/-- Embedding of `all_steps_done` (lines 122-126). -/
def all_steps_done (st : JaraxxusState) : Bool :=
  if st.last_action_status = some "FAILURE" then true
  else decide ((st.plan.getD []).length ≤ st.current_step.getD 0)

/-! ## Planner (`orchestrator.py`, `decompose_task` and `formulate_new_plan`) -/

/-- Shared plan extraction of `decompose_task` (lines 43-45) and
`formulate_new_plan` (lines 156-157): keep the stripped non-blank lines
in order, then replace each by the text after its first `'.'` (the whole
line when it has no `'.'`), stripped again. -/
def parsePlan (raw : String) : List String :=
  (((splitLines raw).map strTrim).filter (fun l => !(l == ""))).map
    (fun step => strTrim (afterFirstDot step))

/-- Prompt built by `decompose_task` (lines 36-40). -/
def decomposePrompt (goal : String) : String :=
  "You are the Orchestrator. Decompose the following user goal into a sequence of steps.\n" ++
  "Goal: " ++ goal ++ "\n" ++
  "Provide a numbered list of concise steps to achieve this goal."

/-- Embedding of `decompose_task` (lines 33-48); `planner` stands for
`orchestrator_llm.predict`. -/
def decompose_task (planner : String → String) (st : JaraxxusState) : JaraxxusState :=
  { st with plan := some (parsePlan (planner (decomposePrompt (st.goal.getD "")))),
            current_step := some 0 }

/-- Prompt built by `reflect_on_failure` (lines 134-140). -/
def reflectPrompt (goal lastAction err : String) : String :=
  "You are an expert debugging agent. The previous attempt to execute the plan failed.\n" ++
  "Original Goal: " ++ goal ++ "\n" ++
  "Last Action: " ++ lastAction ++ "\n" ++
  "Error: " ++ err ++ "\n" ++
  "Analyze the cause of the failure and suggest a new plan or fix."

/-- Embedding of `reflect_on_failure` (lines 129-143): the error slot of
the prompt falls back to the crash log when no error is recorded. -/
def reflect_on_failure (planner : String → String) (st : JaraxxusState) : JaraxxusState :=
  { st with analysis := some (planner (reflectPrompt (st.goal.getD "")
      (st.last_action.getD "") (st.error.getD (st.crash_log.getD "")))) }

/-- Base prompt built by `formulate_new_plan` (lines 148-152). -/
def replanBasePrompt (goal : String) : String :=
  "Given the above analysis of the failure, devise a corrected plan to achieve the goal.\n" ++
  "Goal: " ++ goal ++ "\n" ++
  "New Plan:"

/-- Embedding of `formulate_new_plan` (lines 145-163): a non-empty
analysis is prepended to the prompt; the parsed plan replaces the old
one, the index resets to 0 and the action/status/error fields clear. -/
def formulate_new_plan (planner : String → String) (st : JaraxxusState) : JaraxxusState :=
  let analysis := st.analysis.getD ""
  let base := replanBasePrompt (st.goal.getD "")
  let prompt := if analysis == "" then base else analysis ++ "\n\n" ++ base
  { st with plan := some (parsePlan (planner prompt)),
            current_step := some 0,
            last_action := none,
            last_action_status := none,
            error := none }

/-! ## Escalation (`orchestrator.py`, `invoke_progenitor` and
`integrate_progenitor_suggestion`) -/

/-- Embedding of `invoke_progenitor` (lines 165-180); `oracle` stands
for the Gemini CLI subprocess, `Except.error` for an exception raised by
it (which the source catches and converts into a descriptive string). -/
def invoke_progenitor (oracle : String → Except String String) (st : JaraxxusState) :
    JaraxxusState :=
  let prompt := "Goal: " ++ st.goal.getD "" ++ "\nProblem: " ++
    st.error.getD "an unresolved problem" ++ "\nProvide guidance or tool code to solve this."
  let out := match oracle prompt with
    | Except.ok s => s
    | Except.error e => "Progenitor invocation failed: " ++ e
  { st with progenitor_suggestion := some out }

/-- Embedding of `integrate_progenitor_suggestion` (lines 182-194): the
suggestion is persisted and the outcome marked SUCCESS. -/
def integrate_progenitor_suggestion (st : JaraxxusState) : JaraxxusState :=
  { st with last_action_result := some (RawResult.text "Integrated Progenitor's suggestion."),
            last_action_status := some "SUCCESS" }

/-! ## Module-level control flow (`jaraxxus.py`) -/

/-- Does the next `execute_next_step` call actually run a step
(step index present and within the plan)?  Used to count executed steps. -/
def stepWillRun (st : JaraxxusState) : Nat :=
  match st.current_step, st.plan with
  | some idx, some plan => if idx < plan.length then 1 else 0
  | _, _ => 0

/-- Embedding of the main execution loop (`jaraxxus.py` lines 65-94),
fuelled.  Returns the final state and the number of steps executed.
Each iteration: decompose when plan or index is absent, execute the
current step, exit when `all_steps_done`, else advance via
`proceed_or_handle_failure`; the inner FAILURE check (lines 92-94)
is kept even though `all_steps_done` already exits on FAILURE. -/
def runLoop (planner : String → String) (worker : Worker) :
    Nat → JaraxxusState → JaraxxusState × Nat
  | 0, st => (st, 0)
  | Nat.succ fuel, st =>
    let st0 := if st.plan.isNone || st.current_step.isNone
               then decompose_task planner st else st
    let c := stepWillRun st0
    let st1 := execute_next_step worker st0
    if all_steps_done st1 then (st1, c)
    else
      let st2 := proceed_or_handle_failure st1
      if st2.last_action_status = some "FAILURE" then (st2, c)
      else
        let r := runLoop planner worker fuel st2
        (r.1, c + r.2)

/-- Embedding of the recovered-plan loop (`jaraxxus.py` lines 111-132),
fuelled.  Returns the final state and the number of Escalation Oracle
calls performed: on a FAILURE seen after `proceed_or_handle_failure`
the Progenitor is invoked once and its suggestion integrated, then the
loop ends.  Mirrors the source exactly — including the fact that
`all_steps_done` is consulted FIRST, before the failure check. -/
def runRecoveredLoop (worker : Worker) (oracle : String → Except String String) :
    Nat → JaraxxusState → JaraxxusState × Nat
  | 0, st => (st, 0)
  | Nat.succ fuel, st =>
    let st1 := execute_next_step worker st
    if all_steps_done st1 then (st1, 0)
    else
      let st2 := proceed_or_handle_failure st1
      if st2.last_action_status = some "FAILURE" then
        (integrate_progenitor_suggestion (invoke_progenitor oracle st2), 1)
      else runRecoveredLoop worker oracle fuel st2

/-- Lesson record appended to the Codex (`jaraxxus.py` lines 136-143);
the generated `lesson_id` and the float `confidence_score` are carried
by their producing collaborators and omitted from the record's payload
fields modelled here. -/
structure Lesson where
  problem_signature : String
  failure_pattern : List String
  successful_resolution : List String
  human_guidance : String
deriving DecidableEq

/-- Lesson construction exactly as `jaraxxus.py` lines 136-143 performs
it: BOTH plan fields read the CURRENT `state["plan"]`. -/
def mkLesson (st : JaraxxusState) : Lesson :=
  { problem_signature := st.error.getD "Unknown error",
    failure_pattern := st.plan.getD [],
    successful_resolution := st.plan.getD [],
    human_guidance := "none" }

/-- Observable summary of one full session run: final state, number of
replan cycles performed, number of Escalation Oracle calls performed,
and the Lesson records appended to the Codex. -/
structure SessionRun where
  state : JaraxxusState
  replans : Nat
  escalations : Nat
  lessons : List Lesson
deriving DecidableEq

/-- Embedding of the fresh-session module-level flow of `jaraxxus.py`
(lines 40-144): run the main loop; on FAILURE reflect once, replan once
and run the recovered loop; append one Lesson when the run ends with
`recovered` true and status SUCCESS. -/
def mainFlow (planner : String → String) (worker : Worker)
    (oracle : String → Except String String) (goal : String) (fuel : Nat) : SessionRun :=
  let st0 : JaraxxusState := { goal := some goal }
  let r1 := runLoop planner worker fuel st0
  let st1 := r1.1
  if st1.last_action_status = some "FAILURE" then
    let st2 := formulate_new_plan planner (reflect_on_failure planner st1)
    let r2 := runRecoveredLoop worker oracle fuel st2
    let st3 := r2.1
    let lessons := if st3.last_action_status = some "SUCCESS" then [mkLesson st3] else []
    { state := st3, replans := 1, escalations := r2.2, lessons := lessons }
  else
    { state := st1, replans := 0, escalations := 0, lessons := [] }

/-! ## Scratchpad log entries and crash recovery
(`memory_manager.py` `log_to_scratchpad`; `jaraxxus.py` lines 13-39) -/

/-- Shape of the `content` dict of one scratchpad entry.  Every logging
site of `jaraxxus.py` writes a subset of these keys (a `none` field
models an absent key). -/
structure LogContent where
  log_session_id : Option String := none
  log_goal : Option String := none
  current_plan : Option (List String) := none
  current_step : Option Nat := none
  log_last_action : Option String := none
  log_last_action_status : Option String := none
  log_error : Option String := none
  crash_log : Option String := none
  log_analysis : Option String := none
deriving DecidableEq

/-- First scratchpad entry whose `crash_log` value is truthy — the entry
the recovery branch of `jaraxxus.py` (lines 29-38) restores from. -/
def findCrashEntry (memories : List LogContent) : Option LogContent :=
  memories.find? (fun c => !(c.crash_log.getD "" == ""))

/-- Embedding of the crash-recovery branch (`jaraxxus.py` lines 25-39):
goal, plan and step index are restored ONLY from an entry carrying a
truthy `crash_log`; when no such entry exists the state keeps nothing
but the session id. -/
def recoverState (sid : String) (memories : List LogContent) : JaraxxusState :=
  match findCrashEntry memories with
  | some c =>
    { session_id := sid,
      crash_log := c.crash_log,
      goal := some (c.log_goal.getD ""),
      plan := some (c.current_plan.getD []),
      current_step := some (c.current_step.getD 0) }
  | none => { session_id := sid }

/-! ## File tools (`tools.py`) -/

/-- Split an absolute path into its non-empty components. -/
def splitPath (p : String) : List String :=
  ((splitSlash p.data).map String.mk).filter (fun c => !(c == ""))
where
  /-- Split a character list at `'/'`. -/
  splitSlash : List Char → List (List Char)
    | [] => [[]]
    | c :: rest =>
      match splitSlash rest with
      | [] => [[]]
      | l :: ls => if c == '/' then [] :: l :: ls else (c :: l) :: ls

/-- Normalize path components: drop `"."`, let `".."` remove the
preceding component (clamped at the root), keep the rest.  The
accumulator holds the already-normalized components reversed. -/
def normParts (acc : List String) : List String → List String
  | [] => acc.reverse
  | "." :: rest => normParts acc rest
  | ".." :: rest =>
    match acc with
    | [] => normParts [] rest
    | _ :: acc2 => normParts acc2 rest
  | c :: rest => normParts (c :: acc) rest

/-- Model of `os.path.abspath(os.path.join(base, p))` for an absolute
`base`: an absolute `p` replaces `base`, a relative one is appended;
the concatenation is then normalized. -/
def joinAbs (base p : String) : String :=
  let comps := if strStartsWith p "/" then splitPath p else splitPath base ++ splitPath p
  "/" ++ String.intercalate "/" (normParts [] comps)

/-- True containment in the workspace: the resolved path IS the
workspace directory or lives strictly below it. -/
def inWorkspace (workspace absPath : String) : Bool :=
  absPath == workspace || strStartsWith absPath (workspace ++ "/")

/-- Embedding of `tools._resolve_path` (lines 10-16): resolve against
the workspace directory and accept exactly the paths whose resolution
has the workspace directory as a STRING PREFIX (`str.startswith`);
`Except.error` models the raised `ValueError`. -/
def resolve_path (workspace path : String) : Except String String :=
  let absPath := joinAbs workspace path
  if strStartsWith absPath workspace then Except.ok absPath
  else Except.error ("Path '" ++ path ++ "' is outside of the workspace.")

/-- Embedding of `tools.read_file` (lines 18-30) over a filesystem
modelled as a partial map from absolute paths to contents: any exception
(path rejection or missing file) is caught and rendered as an
`"ERROR: ..."` string returned to the caller. -/
def read_file (fs : String → Option String) (workspace path : String) : String :=
  match resolve_path workspace path with
  | Except.error e => "ERROR: " ++ e
  | Except.ok full =>
    match fs full with
    | some content => content
    | none => "ERROR: No such file or directory: " ++ full

end Jaraxxus

namespace Jaraxxus

/-! ## Shared concrete fixtures -/

/-- A state about to execute the single analysis step `"assess"`. -/
def exampleStepState : JaraxxusState :=
  { goal := some "g", plan := some ["assess"], current_step := some 0 }

/-- A worker whose every invocation raises an exception `"boom"`. -/
def raisingWorker : Worker := fun _ _ => Except.error "boom"

/-- A worker whose every invocation returns the plain success text. -/
def succeedingWorker : Worker := fun _ _ => Except.ok (RawResult.text "done")

/-- A worker whose every invocation returns an `"ERROR..."` text. -/
def failingWorker : Worker := fun _ _ => Except.ok (RawResult.text "ERROR: boom")

/-- A planner returning the same one-step numbered list on every call. -/
def constAlphaPlanner : String → String := fun _ => "1. alpha"

/-- An escalation oracle that always answers. -/
def okOracle : String → Except String String := fun _ => Except.ok "a suggestion"

/-! ## Helper lemmas -/

/-- A worker all of whose invocations return a result the normalization
rule classifies as SUCCESS. -/
def WorkerSucceeds (worker : Worker) : Prop :=
  ∀ cap p, ∃ r, worker cap p = Except.ok r ∧ (normalizeStatus r).1 = "SUCCESS"

lemma proceed_status (st : JaraxxusState) :
    (proceed_or_handle_failure st).last_action_status = st.last_action_status := by
  unfold proceed_or_handle_failure
  split <;> rfl

lemma proceed_plan (st : JaraxxusState) :
    (proceed_or_handle_failure st).plan = st.plan := by
  unfold proceed_or_handle_failure
  split <;> rfl

lemma proceed_of_no_failure (st : JaraxxusState)
    (h : st.last_action_status ≠ some "FAILURE") :
    (proceed_or_handle_failure st).current_step = st.current_step.map (· + 1) := by
  unfold proceed_or_handle_failure
  rw [if_neg h]

lemma all_steps_done_of_failure (st : JaraxxusState)
    (h : st.last_action_status = some "FAILURE") : all_steps_done st = true := by
  simp [all_steps_done, h]

lemma status_ne_failure_of_not_done (st : JaraxxusState)
    (h : all_steps_done st = false) : st.last_action_status ≠ some "FAILURE" := by
  intro hf
  rw [all_steps_done_of_failure st hf] at h
  exact absurd h (by simp)

lemma execute_success (worker : Worker) (hw : WorkerSucceeds worker)
    (st : JaraxxusState) (pl : List String) (k : Nat)
    (hp : st.plan = some pl) (hi : st.current_step = some k) (hk : k < pl.length) :
    (execute_next_step worker st).plan = some pl ∧
    (execute_next_step worker st).current_step = some k ∧
    (execute_next_step worker st).last_action_status = some "SUCCESS" := by
  obtain ⟨r, hr, hs⟩ := hw (route (pl.get ⟨k, hk⟩))
    (dispatchPrompt (applyStepHeader st (pl.get ⟨k, hk⟩)) (pl.get ⟨k, hk⟩))
  unfold execute_next_step
  rw [hi, hp]
  simp only [hk, dif_pos, hr]
  cases r with
  | text s => simp [applyStepHeader, hp, hi, hs]
  | exitJson s code => simp [applyStepHeader, hp, hi, hs]
  | dict e d =>
    cases d with
    | none => simp [applyStepHeader, hp, hi, hs]
    | some dd => simp [applyStepHeader, hp, hi, hs]

lemma execute_out_of_range (worker : Worker) (st : JaraxxusState) (pl : List String)
    (hp : st.plan = some pl) (k : Nat) (hi : st.current_step = some k)
    (hk : ¬ k < pl.length) : execute_next_step worker st = st := by
  unfold execute_next_step
  rw [hi, hp]
  simp [hk]

lemma runRecoveredLoop_no_escalation (worker : Worker)
    (oracle : String → Except String String) :
    ∀ (fuel : Nat) (st : JaraxxusState),
      (runRecoveredLoop worker oracle fuel st).2 = 0 := by
  intro fuel
  induction fuel with
  | zero => intro st; rfl
  | succ fuel ih =>
    intro st
    unfold runRecoveredLoop
    by_cases hd : all_steps_done (execute_next_step worker st) = true
    · simp [hd]
    · have hb : all_steps_done (execute_next_step worker st) = false :=
        Bool.eq_false_iff.mpr hd
      have hs := status_ne_failure_of_not_done _ hb
      have hs2 : (proceed_or_handle_failure (execute_next_step worker st)).last_action_status
          ≠ some "FAILURE" := by
        rw [proceed_status]; exact hs
      simp only [hb, Bool.false_eq_true, if_false, if_neg hs2]
      exact ih _

lemma runLoop_allSuccess (planner : String → String) (worker : Worker)
    (hw : WorkerSucceeds worker) :
    ∀ (fuel : Nat) (k : Nat) (st : JaraxxusState) (pl : List String),
      st.plan = some pl → st.current_step = some k → k ≤ pl.length →
      st.last_action_status ≠ some "FAILURE" →
      pl.length - k < fuel →
      (runLoop planner worker fuel st).1.current_step = some pl.length ∧
      (runLoop planner worker fuel st).2 = pl.length - k ∧
      all_steps_done (runLoop planner worker fuel st).1 = true ∧
      (runLoop planner worker fuel st).1.last_action_status ≠ some "FAILURE" := by
  intro fuel
  induction fuel with
  | zero => intro k st pl _ _ _ _ hfuel; omega
  | succ fuel ih =>
    intro k st pl hp hi hk hf hfuel
    have hnodec : (st.plan.isNone || st.current_step.isNone) = false := by
      rw [hp, hi]; rfl
    by_cases hkl : k < pl.length
    · -- a real step runs, succeeds, and the loop continues at k+1
      obtain ⟨he1, he2, he3⟩ := execute_success worker hw st pl k hp hi hkl
      have hrun : stepWillRun st = 1 := by
        unfold stepWillRun; rw [hi, hp]; simp [hkl]
      have hdone : all_steps_done (execute_next_step worker st) = false := by
        unfold all_steps_done
        rw [he3, he1, he2]
        simp [Nat.not_le_of_lt hkl]
      have hs2 : (proceed_or_handle_failure (execute_next_step worker st)).last_action_status
          = some "SUCCESS" := by rw [proceed_status, he3]
      have hs2' : (proceed_or_handle_failure (execute_next_step worker st)).last_action_status
          ≠ some "FAILURE" := by rw [hs2]; simp
      have hstep : (proceed_or_handle_failure (execute_next_step worker st)).current_step
          = some (k + 1) := by
        rw [proceed_of_no_failure _ (by rw [he3]; simp), he2]; rfl
      have hplan : (proceed_or_handle_failure (execute_next_step worker st)).plan = some pl := by
        rw [proceed_plan, he1]
      obtain ⟨ih1, ih2, ih3, ih4⟩ := ih (k + 1)
        (proceed_or_handle_failure (execute_next_step worker st)) pl hplan hstep
        (by omega) hs2' (by omega)
      unfold runLoop
      simp only [hnodec, Bool.false_eq_true, if_false, hrun, hdone, if_neg hs2']
      refine ⟨ih1, ?_, ih3, ih4⟩
      rw [ih2]; omega
    · -- the index has reached the end: the execute call is a no-op and the loop exits
      have hke : k = pl.length := by omega
      have hexec : execute_next_step worker st = st :=
        execute_out_of_range worker st pl hp k hi hkl
      have hrun : stepWillRun st = 0 := by
        unfold stepWillRun; rw [hi, hp]; simp [hkl]
      have hdone : all_steps_done st = true := by
        unfold all_steps_done
        rw [if_neg hf, hp, hi]
        simp [hke]
      unfold runLoop
      simp only [hnodec, Bool.false_eq_true, if_false, hexec, hrun, hdone, if_pos]
      refine ⟨by rw [hi, hke], by omega, by simp [hdone], hf⟩

/-! ## Claim-specific fixtures -/

/-- Planner for the lesson scenario: the goal decomposes to the one-step
plan `["alpha"]`; every later planner call (reflection, replan) yields
`"1. beta"`, so the replanned plan is `["beta"]`. -/
def lessonPlanner : String → String :=
  fun p => if p == decomposePrompt "g" then "1. alpha" else "1. beta"

/-- Worker for the lesson scenario: the step `"alpha"` fails with an
`ERROR` text, every other step succeeds. -/
def lessonWorker : Worker :=
  fun _ p => if p == "alpha" then Except.ok (RawResult.text "ERROR: boom")
             else Except.ok (RawResult.text "done")

/-- Scratchpad contents of a session that logged goal `"g"`, the plan
`["a", "b"]` and a SUCCESS outcome for step 0 and then crashed while at
step index 1.  Entry one is the initial log (`jaraxxus.py` line 53),
entry two the post-decompose log (line 69), entry three the post-step
log (lines 75-82).  No logging site of `jaraxxus.py` ever writes a
`current_step` key, and the only site writing a `crash_log` key (line
60) runs in the `--recover` path and echoes the recovered value — empty
for a session that was never recovered before — so no entry of a
normal session carries a truthy `crash_log`. -/
def scratchpadExample : List LogContent :=
  [ { log_session_id := some "s", log_goal := some "g", current_plan := some [] },
    { current_plan := some ["a", "b"] },
    { log_last_action := some "a", log_last_action_status := some "SUCCESS",
      log_error := some "" } ]

/-- Filesystem with one file that lives OUTSIDE the workspace
`/home/user/workspace`, in the sibling directory `workspace2`. -/
def fsOutsideExample : String → Option String :=
  fun p => if p == "/home/user/workspace2/secret" then some "topsecret" else none

/-- State in which step 0 (`"read the file notes.txt"`) just completed
with a non-empty result and step 1 (an analysis step) is current. -/
def exampleReadState : JaraxxusState :=
  { goal := some "g",
    plan := some ["read the file notes.txt", "summarize the content"],
    current_step := some 1,
    last_action := some "read the file notes.txt",
    last_action_result := some (RawResult.text "file contents"),
    last_action_status := some "SUCCESS" }

/-- Amended §4.3 error-detection rule, following the code: an error is
detected exactly for a string result whose stripped form starts with
`"ERROR"`, or a string result embedding `"exit_code":` whose parsed code
is non-zero; a structured dict result never triggers an error. -/
def errorDetectedAmended : RawResult → Bool
  | RawResult.text s => strStartsWith (strTrim s) "ERROR"
  | RawResult.exitJson s code => strStartsWith (strTrim s) "ERROR" || decide (code ≠ 0)
  | RawResult.dict _ _ => false

/-! ## Claim theorems -/

set_option maxRecDepth 4000 in
/-- C1: the first half of the claim holds — on a first-run FAILURE the
orchestrator performs exactly one replan cycle, and never more than one
of either recovery action — but the escalation half fails: the
Escalation Oracle is NEVER invoked, for any planner, worker, oracle,
goal and fuel, because `all_steps_done` already returns true on a
FAILURE outcome and exits the recovered loop before the escalation
branch is evaluated.  The concrete conjunct runs a session whose every
step of both plans fails: one replan happens, zero escalations. -/
theorem c1_recovery_bounded_no_escalation :
    (∀ (planner : String → String) (worker : Worker)
       (oracle : String → Except String String) (goal : String) (fuel : Nat),
      (mainFlow planner worker oracle goal fuel).replans ≤ 1 ∧
      (mainFlow planner worker oracle goal fuel).escalations = 0) ∧
    ((mainFlow constAlphaPlanner failingWorker okOracle "g" 4).replans = 1 ∧
     (mainFlow constAlphaPlanner failingWorker okOracle "g" 4).escalations = 0 ∧
     (mainFlow constAlphaPlanner failingWorker okOracle "g" 4).state.last_action_status
       = some "FAILURE") := by
  constructor
  · intro planner worker oracle goal fuel
    by_cases hc : (runLoop planner worker fuel
        { goal := some goal }).1.last_action_status = some "FAILURE" <;>
      simp [mainFlow, hc, runRecoveredLoop_no_escalation]
  · refine ⟨by decide, by decide, by decide⟩

/-- C2 counterexample: a structured (dict) raw result carrying exit code
2 is normalized to SUCCESS, both at the normalization rule and through a
full `execute_next_step` dispatch — the claim requires FAILURE for
`{"exit_code": 2}`. -/
theorem c2_structured_exit_code_counterexample :
    normalizeStatus (RawResult.dict (some 2) none) = ("SUCCESS", none) ∧
    (execute_next_step (fun _ _ => Except.ok (RawResult.dict (some 2) none))
      exampleStepState).last_action_status = some "SUCCESS" := by
  refine ⟨by decide, by decide⟩

/-- C2 amended: status is SUCCESS iff no error condition is detected,
where the error conditions are (1) a STRING result whose stripped form
begins with `"ERROR"`, with the error field equal to the full raw text,
and (2) a STRING result embedding an `"exit_code":` field whose parsed
code is non-zero, with the error citing the code; every other result —
including a structured dict result whatever its exit-code field — is
SUCCESS. -/
theorem c2_normalization_amended (r : RawResult) :
    ((normalizeStatus r).1 = if errorDetectedAmended r then "FAILURE" else "SUCCESS") ∧
    (∀ s, r = RawResult.text s → strStartsWith (strTrim s) "ERROR" = true →
      (normalizeStatus r).2 = some s) ∧
    (∀ s code, r = RawResult.exitJson s code → strStartsWith (strTrim s) "ERROR" = false →
      code ≠ 0 →
      (normalizeStatus r).2 = some ("Command returned exit code " ++ toString code)) := by
  refine ⟨?_, ?_, ?_⟩
  · cases r with
    | text s =>
      by_cases h : strStartsWith (strTrim s) "ERROR" <;>
        simp [normalizeStatus, errorDetectedAmended, h]
    | exitJson s code =>
      by_cases h : strStartsWith (strTrim s) "ERROR"
      · simp [normalizeStatus, errorDetectedAmended, h]
      · by_cases h2 : code = 0 <;>
          simp [normalizeStatus, errorDetectedAmended, h, h2]
    | dict e d => simp [normalizeStatus, errorDetectedAmended]
  · rintro s rfl h
    simp [normalizeStatus, h]
  · rintro s code rfl h h2
    simp [normalizeStatus, h, h2]

/-- C2 amended, witness: the spec's own example `"ERROR: disk full"`. -/
theorem c2_normalization_amended_witness :
    (normalizeStatus (RawResult.text "ERROR: disk full")).2 = some "ERROR: disk full" :=
  (c2_normalization_amended (RawResult.text "ERROR: disk full")).2.1
    "ERROR: disk full" rfl (by decide)

/-- C3: on SUCCESS the step index advances by exactly one, on FAILURE it
does not change, and on a plan of length N whose steps all succeed the
loop executes exactly N steps and terminates with `all_steps_done` true
(the DONE condition) at step index N. -/
theorem c3_execution_loop_progress :
    (∀ (st : JaraxxusState) (i : Nat), st.last_action_status = some "SUCCESS" →
      st.current_step = some i →
      (proceed_or_handle_failure st).current_step = some (i + 1)) ∧
    (∀ st : JaraxxusState, st.last_action_status = some "FAILURE" →
      proceed_or_handle_failure st = st) ∧
    (∀ (planner : String → String) (worker : Worker) (st : JaraxxusState)
       (pl : List String) (fuel : Nat),
      WorkerSucceeds worker → st.plan = some pl → st.current_step = some 0 →
      st.last_action_status ≠ some "FAILURE" → pl.length < fuel →
      (runLoop planner worker fuel st).1.current_step = some pl.length ∧
      (runLoop planner worker fuel st).2 = pl.length ∧
      all_steps_done (runLoop planner worker fuel st).1 = true ∧
      (runLoop planner worker fuel st).1.last_action_status ≠ some "FAILURE") := by
  refine ⟨?_, ?_, ?_⟩
  · intro st i hs hi
    rw [proceed_of_no_failure st (by rw [hs]; simp), hi]
    rfl
  · intro st hf
    unfold proceed_or_handle_failure
    rw [if_pos hf]
  · intro planner worker st pl fuel hw hp hi hf hfuel
    have h := runLoop_allSuccess planner worker hw fuel 0 st pl hp hi
      (Nat.zero_le _) hf (by omega)
    simpa using h

/-- C3 witness: a two-step plan under an always-succeeding worker runs
exactly 2 steps and ends done at index 2; the SUCCESS and FAILURE
transition parts applied at concrete states. -/
theorem c3_execution_loop_progress_witness :
    ((proceed_or_handle_failure { exampleStepState with
        last_action_status := some "SUCCESS" }).current_step = some 1) ∧
    (proceed_or_handle_failure { exampleStepState with
        last_action_status := some "FAILURE" } =
      { exampleStepState with last_action_status := some "FAILURE" }) ∧
    ((runLoop constAlphaPlanner succeedingWorker 3
        { goal := some "g", plan := some ["alpha", "beta"],
          current_step := some 0 }).1.current_step = some 2 ∧
     (runLoop constAlphaPlanner succeedingWorker 3
        { goal := some "g", plan := some ["alpha", "beta"],
          current_step := some 0 }).2 = 2 ∧
     all_steps_done (runLoop constAlphaPlanner succeedingWorker 3
        { goal := some "g", plan := some ["alpha", "beta"],
          current_step := some 0 }).1 = true ∧
     (runLoop constAlphaPlanner succeedingWorker 3
        { goal := some "g", plan := some ["alpha", "beta"],
          current_step := some 0 }).1.last_action_status ≠ some "FAILURE") :=
  ⟨c3_execution_loop_progress.1 _ 0 rfl rfl,
   c3_execution_loop_progress.2.1 _ rfl,
   c3_execution_loop_progress.2.2 constAlphaPlanner succeedingWorker
     { goal := some "g", plan := some ["alpha", "beta"], current_step := some 0 }
     ["alpha", "beta"] 3
     (fun _ _ => ⟨RawResult.text "done", rfl, by decide⟩)
     rfl rfl (by decide) (by decide)⟩

/-- C4: the routing priority order of `route` — any step containing a
FileOps keyword routes to FileOps whatever other keywords it contains;
with no FileOps keyword a CommandExec keyword routes to CommandExec;
with neither the step defaults to Analysis.  `route` is a pure Lean
function, so the classification is deterministic and repeatable. -/
theorem c4_routing_priority (step : String) :
    (hasAnyKeyword fileKeywords step = true → route step = Capability.fileOps) ∧
    (hasAnyKeyword fileKeywords step = false → hasAnyKeyword commandKeywords step = true →
      route step = Capability.commandExec) ∧
    (hasAnyKeyword fileKeywords step = false → hasAnyKeyword commandKeywords step = false →
      route step = Capability.analysis) := by
  refine ⟨?_, ?_, ?_⟩
  · intro h1; simp [route, h1]
  · intro h1 h2; simp [route, h1, h2]
  · intro h1 h2; simp [route, h1, h2]

/-- C4 witness: a step containing both the FileOps keyword `"save"` and
the CommandExec keyword `"run"` routes to FileOps. -/
theorem c4_routing_priority_witness :
    hasAnyKeyword fileKeywords "save the report and run the tests" = true ∧
    hasAnyKeyword commandKeywords "save the report and run the tests" = true ∧
    route "save the report and run the tests" = Capability.fileOps :=
  ⟨by decide, by decide,
   (c4_routing_priority "save the report and run the tests").1 (by decide)⟩

/-- C5: the crash-recovery branch reconstructs NOTHING from the
scratchpad of an ordinarily logged session.  The fixture holds exactly
the entries the source logs for a session with goal `"g"`, plan
`["a", "b"]` and a SUCCESS outcome for step 0; restore only fires on an
entry with a truthy `crash_log` key, which a never-recovered session
does not log, and no entry ever carries the step index at all — so the
resumed state has no goal, no plan and no step index. -/
theorem c5_crash_resume_lost_state :
    (recoverState "s" scratchpadExample).goal = none ∧
    (recoverState "s" scratchpadExample).plan = none ∧
    (recoverState "s" scratchpadExample).current_step = none ∧
    recoverState "s" scratchpadExample = { session_id := "s" } ∧
    (scratchpadExample.map LogContent.current_plan) = [some [], some ["a", "b"], none] ∧
    scratchpadExample.all (fun c => c.crash_log.isNone && c.current_step.isNone) = true := by
  refine ⟨by decide, by decide, by decide, by decide, by decide, by decide⟩

set_option maxRecDepth 8000 in
/-- C6: the Lesson record appended after a recovered SUCCESS does NOT
contain the failed plan: both plan fields of `mkLesson` read the same
current `state["plan"]`, which the replan has already overwritten.  In
the concrete session the goal decomposes to `["alpha"]` (which fails)
and the replanned `["beta"]` succeeds; exactly one Lesson is appended,
but its `failure_pattern` is `["beta"]`, not the failed `["alpha"]`. -/
theorem c6_lesson_content_bug :
    (∀ st : JaraxxusState,
      (mkLesson st).failure_pattern = (mkLesson st).successful_resolution) ∧
    parsePlan (lessonPlanner (decomposePrompt "g")) = ["alpha"] ∧
    (mainFlow lessonPlanner lessonWorker okOracle "g" 4).lessons =
      [{ problem_signature := "Unknown error",
         failure_pattern := ["beta"],
         successful_resolution := ["beta"],
         human_guidance := "none" }] ∧
    (mainFlow lessonPlanner lessonWorker okOracle "g" 4).state.last_action_status
      = some "SUCCESS" := by
  refine ⟨fun st => rfl, by decide, by decide, by decide⟩

/-- C7 counterexample: the raw planner output `"- run tests\n2."`
produces an entry that still carries its bullet markup and a second
entry that is blank — the claim requires all markup stripped and no
blank entries for every raw output. -/
theorem c7_plan_parsing_counterexample :
    parsePlan "- run tests\n2." = ["- run tests", ""] := by decide

/-- C7 amended: both decompose and replan keep one entry per non-blank
line of the raw output, in original order; each entry is its source line
stripped, truncated to the text after the line's first period, and
stripped again (so leading `"1."`-style numbering is removed, bullet
markup is not, and a numbering-only line leaves a blank entry); the
sequence is non-empty iff the raw output has a non-blank line. -/
theorem c7_plan_parsing_amended (raw : String) :
    (parsePlan raw ≠ [] ↔ ∃ l ∈ splitLines raw, strTrim l ≠ "") ∧
    (parsePlan raw).length =
      (((splitLines raw).map strTrim).filter (fun l => !(l == ""))).length ∧
    (∀ e ∈ parsePlan raw, ∃ l ∈ splitLines raw,
      strTrim l ≠ "" ∧ e = strTrim (afterFirstDot (strTrim l))) := by
  refine ⟨?_, ?_, ?_⟩
  · unfold parsePlan
    rw [Ne, List.map_eq_nil_iff, List.filter_eq_nil_iff]
    constructor
    · intro h
      by_contra hno
      push_neg at hno
      exact h (fun a ha => by
        obtain ⟨l, hl, rfl⟩ := List.mem_map.mp ha
        simpa using hno l hl)
    · rintro ⟨l, hl, hne⟩ hall
      exact hne (by simpa using hall (strTrim l) (List.mem_map.mpr ⟨l, hl, rfl⟩))
  · unfold parsePlan
    rw [List.length_map]
  · intro e he
    unfold parsePlan at he
    obtain ⟨a, ha, rfl⟩ := List.mem_map.mp he
    obtain ⟨ha2, hp⟩ := List.mem_filter.mp ha
    obtain ⟨l, hl, rfl⟩ := List.mem_map.mp ha2
    exact ⟨l, hl, by simpa using hp, rfl⟩

/-- C7 amended, witness: the one-line numbered output `"1. alpha"`
yields a non-empty plan. -/
theorem c7_plan_parsing_amended_witness : parsePlan "1. alpha" ≠ [] :=
  (c7_plan_parsing_amended "1. alpha").1.mpr ⟨"1. alpha", by decide, by decide⟩

/-- C8: the Analysis branch NEVER appends the prior step's result: by the
time the context condition runs, `execute_next_step` has already
overwritten `last_action` with the current step and reset
`last_action_result` to the empty string, so the condition is false for
every state and every step.  The concrete conjunct is the claim's
scenario — a read step with a non-empty result immediately precedes an
analysis step — and the dispatched prompt is still the bare step text. -/
theorem c8_analysis_context_never_appended :
    (∀ (st : JaraxxusState) (step : String),
      dispatchPrompt (applyStepHeader st step) step = step) ∧
    route "summarize the content" = Capability.analysis ∧
    exampleReadState.last_action_result = some (RawResult.text "file contents") ∧
    dispatchPrompt (applyStepHeader exampleReadState "summarize the content")
      "summarize the content" = "summarize the content" := by
  refine ⟨?_, by decide, rfl, by decide⟩
  intro st step
  unfold dispatchPrompt
  cases route step <;>
    simp [analysisPrompt, applyStepHeader, RawResult.isTruthy]

/-- C9 counterexample: a worker exception with message `"boom"` is
recorded with error `"Exception during step: boom"`, not with the
message itself as the claim states. -/
theorem c9_error_field_counterexample :
    (execute_next_step raisingWorker exampleStepState).last_action_status
      = some "FAILURE" ∧
    (execute_next_step raisingWorker exampleStepState).error
      = some "Exception during step: boom" ∧
    (execute_next_step raisingWorker exampleStepState).error ≠ some "boom" := by
  refine ⟨by decide, by decide, by decide⟩

/-- C9 amended: any exception raised by the worker invocation is caught
and converted into a FAILURE outcome whose error field is the
exception's message prefixed by `"Exception during step: "`; the
embedded dispatch is a total function, so no fault escapes. -/
theorem c9_fault_containment_amended (worker : Worker) (st : JaraxxusState)
    (msg : String) (idx : Nat) (pl : List String)
    (hw : ∀ cap p, worker cap p = Except.error msg)
    (hi : st.current_step = some idx) (hp : st.plan = some pl)
    (hk : idx < pl.length) :
    (execute_next_step worker st).last_action_status = some "FAILURE" ∧
    (execute_next_step worker st).error = some ("Exception during step: " ++ msg) := by
  unfold execute_next_step
  rw [hi, hp]
  simp [hk, hw]

/-- C9 amended, witness: the always-raising worker at the concrete
one-step state. -/
theorem c9_fault_containment_amended_witness :
    (execute_next_step raisingWorker exampleStepState).last_action_status
      = some "FAILURE" ∧
    (execute_next_step raisingWorker exampleStepState).error
      = some ("Exception during step: " ++ "boom") :=
  c9_fault_containment_amended raisingWorker exampleStepState "boom" 0 ["assess"]
    (fun _ _ => rfl) rfl rfl (by decide)

/-- C10: the workspace check is a bare string-prefix test, so a path
resolving into the SIBLING directory `/home/user/workspace2` — outside
the workspace `/home/user/workspace` — is accepted, and `read_file`
returns the contents of a file outside the workspace.  The final
conjunct shows the error-value behaviour the claim describes does hold
for a plain `".."` escape. -/
theorem c10_workspace_escape :
    resolve_path "/home/user/workspace" "../workspace2/secret" =
      Except.ok "/home/user/workspace2/secret" ∧
    inWorkspace "/home/user/workspace" "/home/user/workspace2/secret" = false ∧
    read_file fsOutsideExample "/home/user/workspace" "../workspace2/secret"
      = "topsecret" ∧
    strStartsWith (read_file fsOutsideExample "/home/user/workspace" "../etc/passwd")
      "ERROR" = true := by
  refine ⟨rfl, by decide, by decide, by decide⟩

end Jaraxxus

